import Mathlib

/-!
Verification of the `bl_transform_utils` module (src/__init__.py), a Blender
transform-extraction utility layer.  The module is embedded shallowly:

* Python floats are modelled as real numbers (`ℝ`).
* `mathutils.Matrix` values are modelled as square matrices of an arbitrary
  size (`PyMatrix`), since the module's own validation only inspects
  `len(matrix)`; the data-model invariant of the host is that matrices are
  square of size 2..4.
* Dynamically typed selector arguments (which may fail `isinstance` checks)
  are modelled by `PyArg`; targets (None / Object / PoseBone / anything else)
  by `PyTarget`.
* Host-provided numeric primitives that live outside this repository
  (`Matrix.to_euler`, `Matrix.to_quaternion`, `Matrix.to_scale`,
  `Quaternion.to_swing_twist`, `Quaternion.to_matrix`, `convert_space`) are
  abstracted into a bundle `HostOps`; quaternion algebra
  (`Quaternion.__mul__`, `Quaternion.inverted`) and `math.acos`/`math.asin`
  are modelled concretely, following the documented mathutils/CPython
  semantics, because the two-target metric claims depend on their formulas.
* Python exceptions are modelled with `Except PyError`; the module's
  `ValueError` (the spec's InvalidArgument) carries the name of the offending
  parameter, `TypeError` (the spec's TypeMismatch) likewise.
* The module constant `DEBUG = True` (line 8) is baked in: the validation
  block always runs, as the spec assumes.  The global `STRICT` flag (default
  `False`) is threaded through as an explicit parameter so that claims about
  it can be stated.  `LOGGER`/`LOG_ERRORS` only feed a diagnostic side
  channel and are not modelled (no claim mentions logging output).
-/

namespace BlTransformUtils

/-- Python exception kinds raised by the module or by the primitives it
calls.  `valueError p` / `typeError p` record the offending parameter name. -/
inductive PyError where
  | typeError (param : String)
  | valueError (param : String)
  | assertionError
  | attributeError
  | domainError
  | indexError
  deriving DecidableEq, Repr

/-- A dynamically typed argument position that the code expects to hold a
string: either an actual string, or a value of some other (hashable)
runtime type. -/
inductive PyArg where
  | ofStr (s : String)
  | nonStr (typeName : String)
  deriving DecidableEq, Repr

/-- Is the argument an actual `str`?  (`isinstance(x, str)`). -/
def PyArg.isStr : PyArg → Bool
  | .ofStr _ => true
  | .nonStr _ => false

/-- The underlying string of a validated argument (only used after the
membership check has guaranteed `ofStr`). -/
def PyArg.asStr : PyArg → String
  | .ofStr s => s
  | .nonStr _ => ""

/-- A `mathutils.Matrix`: square of arbitrary size, real entries.
`size` models `len(matrix)` (the number of rows). -/
structure PyMatrix where
  size : Nat
  entry : Fin size → Fin size → ℝ

/-- Total entry access with a junk default out of range (only ever used at
indices validated to be in range). -/
noncomputable def PyMatrix.get (m : PyMatrix) (i j : Nat) : ℝ :=
  if h : i < m.size ∧ j < m.size then m.entry ⟨i, h.1⟩ ⟨j, h.2⟩ else 0

/-- `mathutils.Matrix.Identity(4)`. -/
noncomputable def pyIdentity4 : PyMatrix :=
  ⟨4, fun i j => if i = j then 1 else 0⟩

/-- A `mathutils.Vector` of length 3 (translation / Euler / scale triples). -/
structure Vec3 where
  x : ℝ
  y : ℝ
  z : ℝ

/-- Python indexing `v[i]` on a length-3 vector (junk out of range; the code
only indexes with results of `'XYZ'.index`). -/
noncomputable def Vec3.get (v : Vec3) : Nat → ℝ
  | 0 => v.x
  | 1 => v.y
  | 2 => v.z
  | _ => 0

/-- A `mathutils.Quaternion` in (w, x, y, z) order. -/
structure Quat where
  w : ℝ
  x : ℝ
  y : ℝ
  z : ℝ

/-- Python indexing `q[i]`: 0 → w, 1 → x, 2 → y, 3 → z. -/
noncomputable def Quat.get (q : Quat) : Nat → ℝ
  | 0 => q.w
  | 1 => q.x
  | 2 => q.y
  | 3 => q.z
  | _ => 0

/-- `dot_qtqt(q, q)`: the squared norm used by `Quaternion.inverted`. -/
noncomputable def Quat.normSq (q : Quat) : ℝ :=
  q.w * q.w + q.x * q.x + q.y * q.y + q.z * q.z

/-- Quaternion conjugate. -/
noncomputable def Quat.conjugate (q : Quat) : Quat :=
  ⟨q.w, -q.x, -q.y, -q.z⟩

/-- `mathutils.Quaternion.inverted()`: conjugate divided by the squared
norm; when the squared norm is zero Blender returns the conjugate
unscaled. -/
noncomputable def Quat.inverted (q : Quat) : Quat :=
  if q.normSq = 0 then q.conjugate
  else ⟨q.w / q.normSq, -q.x / q.normSq, -q.y / q.normSq, -q.z / q.normSq⟩

/-- Hamilton product `q1 * q2` (`mul_qt_qtqt`). -/
noncomputable def Quat.mul (a b : Quat) : Quat :=
  ⟨a.w * b.w - a.x * b.x - a.y * b.y - a.z * b.z,
   a.w * b.x + a.x * b.w + a.y * b.z - a.z * b.y,
   a.w * b.y - a.x * b.z + a.y * b.w + a.z * b.x,
   a.w * b.z + a.x * b.y - a.y * b.x + a.z * b.w⟩

/-- `math.acos`: defined on [-1, 1], raises `ValueError: math domain error`
outside (modelled as `domainError`). -/
noncomputable def pyAcos (v : ℝ) : Except PyError ℝ :=
  if -1 ≤ v ∧ v ≤ 1 then .ok (Real.arccos v) else .error .domainError

/-- `math.asin`: defined on [-1, 1], raises a domain error outside. -/
noncomputable def pyAsin (v : ℝ) : Except PyError ℝ :=
  if -1 ≤ v ∧ v ≤ 1 then .ok (Real.arcsin v) else .error .domainError

/-- `str.index(char)`: first index of the character, `ValueError` when
absent. -/
def pyStrIndex (s : String) (c : Char) : Except PyError Nat :=
  match s.toList.findIdx? (fun a => a = c) with
  | some i => .ok i
  | none => .error (.valueError "index")

/-- A `bpy.types.Object`: carries its three host-computed matrices. -/
structure ObjectData where
  matrix_basis : PyMatrix
  matrix_world : PyMatrix
  matrix_local : PyMatrix

/-- A `bpy.types.PoseBone`: its channel matrix and its pose-space matrix. -/
structure BoneData where
  matrix_channel : PyMatrix
  matrix : PyMatrix

/-- The (dynamically typed) `target` argument: `None`, an Object, a
PoseBone, or a value of any other runtime kind. -/
inductive PyTarget where
  | none
  | object (o : ObjectData)
  | poseBone (b : BoneData)
  | other (kind : String)

/-- `target is None or isinstance(target, (Object, PoseBone))`. -/
def targetTypeOk : PyTarget → Bool
  | .other _ => false
  | _ => true

/-- Host-provided numeric primitives used by the module but implemented by
Blender/mathutils, outside this repository.  They are kept abstract: the
claims under verification are about the module's dispatch, validation and
formulas, not about the host's numeric kernels. -/
structure HostOps where
  /-- `Matrix.to_euler()` with no order argument (host default ordering). -/
  toEulerAuto : PyMatrix → Vec3
  /-- `Matrix.to_euler(order)` for a 3-letter order string. -/
  toEuler : PyMatrix → String → Vec3
  /-- `Matrix.to_quaternion()`. -/
  toQuaternion : PyMatrix → Quat
  /-- `Matrix.to_scale()`. -/
  toScale : PyMatrix → Vec3
  /-- `Quaternion.to_swing_twist(axis)`: swing quaternion and twist angle. -/
  swingTwist : Quat → Char → Quat × ℝ
  /-- `id_data.convert_space(pose_bone=b, matrix=m, from_space=f, to_space=t)`. -/
  convertSpace : BoneData → PyMatrix → String → String → PyMatrix
  /-- `Quaternion.to_matrix()`: quaternion to 3x3 rotation matrix. -/
  quatToMatrix : Quat → Fin 3 → Fin 3 → ℝ

/-- `ROTATION_MODE_ITEMS` (src lines 13-25); the UI description strings are
omitted, only the identifier and label columns are retained. -/
def ROTATION_MODE_ITEMS : List (String × String) :=
  [("AUTO", "Auto Euler"),
   ("XYZ", "XYZ Euler"),
   ("XZY", "XZY Euler"),
   ("YXZ", "YXZ Euler"),
   ("YZX", "YZX Euler"),
   ("ZXY", "ZXY Euler"),
   ("ZYX", "ZYX Euler"),
   ("QUATERNION", "Quaternion"),
   ("SWING_TWIST_X", "Swing and X Twist"),
   ("SWING_TWIST_Y", "Swing and Y Twist"),
   ("SWING_TWIST_Z", "Swing and Z Twist")]

/-- `ROTATION_MODE_INDEX`. -/
def ROTATION_MODE_INDEX : List String :=
  ROTATION_MODE_ITEMS.map (fun p => p.1)

/-- `ROTATION_MODE_TABLE`: identifier → ordinal. -/
def ROTATION_MODE_TABLE : List (String × Nat) :=
  ROTATION_MODE_ITEMS.enum.map (fun p => (p.2.1, p.1))

/-- `TRANSFORM_SPACE_ITEMS` (src lines 36-40), description strings omitted. -/
def TRANSFORM_SPACE_ITEMS : List (String × String) :=
  [("WORLD_SPACE", "World Space"),
   ("TRANSFORM_SPACE", "Transform Space"),
   ("LOCAL_SPACE", "Local Space")]

/-- `TRANSFORM_SPACE_INDEX`. -/
def TRANSFORM_SPACE_INDEX : List String :=
  TRANSFORM_SPACE_ITEMS.map (fun p => p.1)

/-- `TRANSFORM_SPACE_TABLE`. -/
def TRANSFORM_SPACE_TABLE : List (String × Nat) :=
  TRANSFORM_SPACE_ITEMS.enum.map (fun p => (p.2.1, p.1))

/-- `TRANSFORM_TYPE_ITEMS` (src lines 50-61). -/
def TRANSFORM_TYPE_ITEMS : List (String × String) :=
  [("LOC_X", "X Location"),
   ("LOC_Y", "Y Location"),
   ("LOC_Z", "Z Location"),
   ("ROT_W", "W Rotation"),
   ("ROT_X", "X Rotation"),
   ("ROT_Y", "Y Rotation"),
   ("ROT_Z", "Z Rotation"),
   ("SCALE_X", "X Scale"),
   ("SCALE_Y", "Y Scale"),
   ("SCALE_Z", "Z Scale")]

/-- `TRANSFORM_TYPE_INDEX`. -/
def TRANSFORM_TYPE_INDEX : List String :=
  TRANSFORM_TYPE_ITEMS.map (fun p => p.1)

/-- `TRANSFORM_TYPE_TABLE`. -/
def TRANSFORM_TYPE_TABLE : List (String × Nat) :=
  TRANSFORM_TYPE_ITEMS.enum.map (fun p => (p.2.1, p.1))

/-- Python `x in TABLE` on a dict keyed by strings: true exactly when `x`
is a string among the keys (a non-string hashable value is simply not a
member). -/
def PyArg.inTable (a : PyArg) (tbl : List (String × Nat)) : Bool :=
  match a with
  | .ofStr s => (tbl.lookup s).isSome
  | .nonStr _ => false

/-- `transform_matrix` (src lines 77-120).  `strict` models the module
global `STRICT`; the `DEBUG` guard is always on (module line 8 sets
`DEBUG = True`). -/
noncomputable def transform_matrix (strict : Bool) (target : PyTarget)
    (transform_space : PyArg) (host : HostOps) : Except PyError PyMatrix :=
  if strict && !(targetTypeOk target) then .error .assertionError
  else
    match transform_space with
    | .nonStr _ => .error (.typeError "transform_space")
    | .ofStr s =>
      if (TRANSFORM_SPACE_TABLE.lookup s).isSome = false then
        .error (.valueError "transform_space")
      else
        match target with
        | .poseBone b =>
          if s = "TRANSFORM_SPACE" then .ok b.matrix_channel
          else
            let to_space := s.take 5
            if to_space = "LOCAL" || to_space = "WORLD" then
              .ok (host.convertSpace b b.matrix "POSE" to_space)
            else .ok pyIdentity4
        | .object o =>
          if s = "TRANSFORM_SPACE" then .ok o.matrix_basis
          else if s = "WORLD_SPACE" then .ok o.matrix_world
          else if s = "LOCAL_SPACE" then .ok o.matrix_local
          else .ok pyIdentity4
        | _ => .ok pyIdentity4

/-- With the default `WORLD_SPACE` selector `transform_matrix` always
succeeds (used by the two-target metrics, which call it with the default
argument). -/
theorem transform_matrix_world_ok (host : HostOps) (t : PyTarget) :
    ∃ m, transform_matrix false t (.ofStr "WORLD_SPACE") host = .ok m := by
  cases t <;> exact ⟨_, rfl⟩

/-- `Matrix.to_translation()`: the last column's first three rows (the code
only calls this after validating the matrix is 4x4). -/
noncomputable def PyMatrix.toTranslation (m : PyMatrix) : Vec3 :=
  ⟨m.get 0 3, m.get 1 3, m.get 2 3⟩

/-- Python `s.startswith(pre)` (computationally transparent version of
`String.startsWith`). -/
def pyStartsWith (s pre : String) : Bool :=
  pre.toList.isPrefixOf s.toList

/-- The body of `transform_matrix_element` after the validation block
(src lines 158-189): `axis = transform_type[-1]` followed by the
prefix/rotation-mode dispatch.  `tt`/`rm` are the validated selector
strings. -/
noncomputable def element_body (matrix : PyMatrix) (tt rm : String)
    (driver : Bool) (host : HostOps) : Except PyError ℝ :=
  let axis := tt.back
  if pyStartsWith tt "LOC" then do
    let i ← pyStrIndex "XYZ" axis
    pure (matrix.toTranslation.get i)
  else if pyStartsWith tt "ROT" then
    if rm = "AUTO" then
      if axis = 'W' then pure 0
      else do
        let i ← pyStrIndex "XYZ" axis
        pure ((host.toEulerAuto matrix).get i)
    else if rm.length = 3 then do
      let i ← pyStrIndex "XYZ" axis
      pure ((host.toEuler matrix rm).get i)
    else if rm = "QUATERNION" then do
      let i ← pyStrIndex "WXYZ" axis
      pure ((host.toQuaternion matrix).get i)
    else
      let twist_axis := rm.back
      let st := host.swingTwist (host.toQuaternion matrix) twist_axis
      if axis = twist_axis then pure st.2
      else do
        let i ← pyStrIndex "WXYZ" axis
        let value := st.1.get i
        if driver then
          (if axis = 'W' then pyAcos value else pyAsin value).map (fun r => r * 2)
        else pure value
  else if pyStartsWith tt "SCALE" then do
    let i ← pyStrIndex "XYZ" axis
    pure ((host.toScale matrix).get i)
  else pure 0

/-- `transform_matrix_element` (src lines 122-189): the validation block
(under the always-true `DEBUG`, with the `STRICT` assertions first), then
the dispatch body.  The strict assertions on `matrix` being a Matrix and
`driver` being a bool always hold in this typed model; the two that can
fail are the string `isinstance` checks on the selectors. -/
noncomputable def transform_matrix_element (strict : Bool) (matrix : PyMatrix)
    (transform_type rotation_mode : PyArg) (driver : Bool) (host : HostOps) :
    Except PyError ℝ :=
  if strict && !(transform_type.isStr && rotation_mode.isStr) then
    .error .assertionError
  else if matrix.size ≠ 4 then .error (.valueError "matrix")
  else if !(transform_type.inTable TRANSFORM_TYPE_TABLE) then
    .error (.valueError "transform_type")
  else if !(rotation_mode.inTable ROTATION_MODE_TABLE) then
    .error (.valueError "rotation_mode")
  else element_body matrix transform_type.asStr rotation_mode.asStr driver host

/-- For a 4x4 matrix and selector strings passing the membership checks,
`transform_matrix_element` at the default `STRICT = False` reduces to its
dispatch body. -/
theorem transform_matrix_element_valid (host : HostOps) (m : PyMatrix)
    (hm : m.size = 4) (tt rm : String)
    (h1 : PyArg.inTable (.ofStr tt) TRANSFORM_TYPE_TABLE = true)
    (h2 : PyArg.inTable (.ofStr rm) ROTATION_MODE_TABLE = true) (d : Bool) :
    transform_matrix_element false m (.ofStr tt) (.ofStr rm) d host =
      element_body m tt rm d host := by
  unfold transform_matrix_element
  simp [hm, h1, h2, PyArg.asStr]

/-- Column `i` of a 4x4 matrix as `matrix.col[i].to_tuple()` produces it:
the four entries down the rows. -/
noncomputable def pyCol (m : PyMatrix) (i : Nat) : List ℝ :=
  [m.get 0 i, m.get 1 i, m.get 2 i, m.get 3 i]

/-- `transform_matrix_flatten` (src lines 191-195):
`sum((matrix.col[i].to_tuple() for i in range(4)), tuple())`, i.e. the four
columns concatenated.  On a smaller square matrix `matrix.col[3]` raises
`IndexError` (the function performs no validation of its own). -/
noncomputable def transform_matrix_flatten (m : PyMatrix) :
    Except PyError (List ℝ) :=
  if m.size = 4 then .ok (pyCol m 0 ++ pyCol m 1 ++ pyCol m 2 ++ pyCol m 3)
  else .error .indexError

/-- The dynamically typed `rotation` argument of
`transform_matrix_compose`: the annotated/default plain 4-tuple, or a
`mathutils.Quaternion`. -/
inductive PyRotation where
  | tuple4 (w x y z : ℝ)
  | quat (q : Quat)

/-- Functional update of one matrix entry (`matrix[r][c] = v`). -/
noncomputable def mat3Set (m : Fin 3 → Fin 3 → ℝ) (r c : Nat) (v : ℝ) :
    Fin 3 → Fin 3 → ℝ :=
  fun i j => if i.1 = r ∧ j.1 = c then v else m i j

/-- 3x3 matrix product (`@`). -/
noncomputable def mat3Mul (a b : Fin 3 → Fin 3 → ℝ) : Fin 3 → Fin 3 → ℝ :=
  fun i j => a i 0 * b 0 j + a i 1 * b 1 j + a i 2 * b 2 j

/-- `Matrix.to_4x4()`: embed a 3x3 block into a 4x4 identity-based matrix. -/
noncomputable def mat3To4x4 (m : Fin 3 → Fin 3 → ℝ) : PyMatrix :=
  ⟨4, fun i j =>
    if h : i.1 < 3 ∧ j.1 < 3 then m ⟨i.1, h.1⟩ ⟨j.1, h.2⟩
    else if i = j then 1 else 0⟩

/-- Functional update of one entry of a `PyMatrix`. -/
noncomputable def PyMatrix.set (m : PyMatrix) (r c : Nat) (v : ℝ) : PyMatrix :=
  ⟨m.size, fun i j => if i.1 = r ∧ j.1 = c then v else m.entry i j⟩

/-- `transform_matrix_compose` (src lines 197-211): build a 3x3 diagonal
scale matrix from `Identity(3)`, left-multiply by
`rotation.to_matrix()`, promote to 4x4, write the location into the last
column.  When `rotation` is the plain tuple of the documented default, the
attribute access `rotation.to_matrix` raises `AttributeError`. -/
noncomputable def transform_matrix_compose (location : ℝ × ℝ × ℝ)
    (rotation : PyRotation) (scale : ℝ × ℝ × ℝ) (host : HostOps) :
    Except PyError PyMatrix :=
  let matrix : Fin 3 → Fin 3 → ℝ := fun i j => if i = j then 1 else 0
  let matrix := mat3Set matrix 0 0 scale.1
  let matrix := mat3Set matrix 1 1 scale.2.1
  let matrix := mat3Set matrix 2 2 scale.2.2
  match rotation with
  | .tuple4 _ _ _ _ => .error .attributeError
  | .quat q =>
    let matrix := mat3To4x4 (mat3Mul (host.quatToMatrix q) matrix)
    let matrix := matrix.set 0 3 location.1
    let matrix := matrix.set 1 3 location.2.1
    let matrix := matrix.set 2 3 location.2.2
    .ok matrix

/-- `transform_target_rotational_difference` (src lines 223-228): world
matrices of both targets, their quaternions,
`angle = fabs(2.0 * acos((q1.inverted() * q2)[0]))`, folded onto the
shorter path. -/
noncomputable def transform_target_rotational_difference (strict : Bool)
    (t1 t2 : PyTarget) (host : HostOps) : Except PyError ℝ :=
  match transform_matrix strict t1 (.ofStr "WORLD_SPACE") host with
  | .error e => .error e
  | .ok m1 =>
    match transform_matrix strict t2 (.ofStr "WORLD_SPACE") host with
    | .error e => .error e
    | .ok m2 =>
      let q1 := host.toQuaternion m1
      let q2 := host.toQuaternion m2
      match pyAcos ((q1.inverted.mul q2).get 0) with
      | .error e => .error e
      | .ok a =>
        let angle := |2 * a|
        .ok (if angle > Real.pi then 2 * Real.pi - angle else angle)

/-- A trivial host bundle used to instantiate theorems on concrete inputs. -/
noncomputable def host0 : HostOps where
  toEulerAuto _ := ⟨0, 0, 0⟩
  toEuler _ _ := ⟨0, 0, 0⟩
  toQuaternion _ := ⟨1, 0, 0, 0⟩
  toScale _ := ⟨1, 1, 1⟩
  swingTwist _ _ := (⟨1, 0, 0, 0⟩, 0)
  convertSpace _ m _ _ := m
  quatToMatrix _ := fun _ _ => 0

/-- A concrete 3x3 (non-4x4) matrix. -/
noncomputable def pyMatrix3 : PyMatrix := ⟨3, fun _ _ => 0⟩

/-- The (w,x,y,z) component position of an axis letter: the indexing scheme
the spec describes for quaternion components. -/
def wxyzIndexOf (c : Char) : Nat :=
  if c = 'W' then 0 else if c = 'X' then 1 else if c = 'Y' then 2 else 3

/-- On its domain, `math.acos` followed by the `* 2.0` of the driver branch
yields `2 * arccos`. -/
theorem pyAcos_map_two {v : ℝ} (h1 : -1 ≤ v) (h2 : v ≤ 1) :
    (pyAcos v).map (fun r => r * 2) = .ok (2 * Real.arccos v) := by
  unfold pyAcos
  rw [if_pos ⟨h1, h2⟩]
  simp [Except.map, mul_comm]

/-- On its domain, `math.asin` followed by `* 2.0` yields `2 * arcsin`. -/
theorem pyAsin_map_two {v : ℝ} (h1 : -1 ≤ v) (h2 : v ≤ 1) :
    (pyAsin v).map (fun r => r * 2) = .ok (2 * Real.arcsin v) := by
  unfold pyAsin
  rw [if_pos ⟨h1, h2⟩]
  simp [Except.map, mul_comm]

/-- C3: for every matrix whose size is not 4, `decompose_component`
(`transform_matrix_element`) returns the InvalidArgument validation error
immediately — before any selector processing or trigonometric computation,
for arbitrary (even ill-typed) selector arguments and driver flag, with no
partial result. -/
theorem claim_C3_matrix_shape_validation (host : HostOps) (m : PyMatrix)
    (tt rm : PyArg) (d : Bool) (hm : m.size ≠ 4) :
    transform_matrix_element false m tt rm d host =
      .error (.valueError "matrix") := by
  unfold transform_matrix_element
  simp [hm]

/-- Witness for C3 at a concrete 3x3 matrix. -/
theorem claim_C3_witness :
    pyMatrix3.size ≠ 4 ∧
    transform_matrix_element false pyMatrix3 (.ofStr "LOC_X") (.ofStr "AUTO")
        false host0 = .error (.valueError "matrix") :=
  ⟨by decide,
   claim_C3_matrix_shape_validation host0 pyMatrix3 (.ofStr "LOC_X")
     (.ofStr "AUTO") false (by decide)⟩

/-- C7: for every valid transform-space selector, `get_transform_matrix`
(`transform_matrix`) on a null target or a target of unrecognized kind
returns the 4x4 identity matrix rather than raising. -/
theorem claim_C7_identity_fallback (host : HostOps) (s : String)
    (hs : (TRANSFORM_SPACE_TABLE.lookup s).isSome = true) :
    transform_matrix false PyTarget.none (.ofStr s) host = .ok pyIdentity4 ∧
    ∀ kind, transform_matrix false (.other kind) (.ofStr s) host =
      .ok pyIdentity4 := by
  constructor
  · unfold transform_matrix
    simp [hs]
  · intro kind
    unfold transform_matrix
    simp [hs]

/-- Witness for C7 at the `WORLD_SPACE` selector. -/
theorem claim_C7_witness :
    (TRANSFORM_SPACE_TABLE.lookup "WORLD_SPACE").isSome = true ∧
    transform_matrix false PyTarget.none (.ofStr "WORLD_SPACE") host0 =
      .ok pyIdentity4 :=
  ⟨by decide, (claim_C7_identity_fallback host0 "WORLD_SPACE" (by decide)).1⟩

/-- C9: on every 4x4 matrix, `flatten_matrix` returns exactly 16 entries in
column-major order: flat index `4*i + j` holds the row-`j`, column-`i`
entry. -/
theorem claim_C9_flatten_column_major (m : PyMatrix) (hm : m.size = 4) :
    ∃ L, transform_matrix_flatten m = .ok L ∧ L.length = 16 ∧
      ∀ i j : Fin 4, L.getD (4 * i.1 + j.1) 0 = m.get j.1 i.1 := by
  refine ⟨pyCol m 0 ++ pyCol m 1 ++ pyCol m 2 ++ pyCol m 3, ?_, ?_, ?_⟩
  · unfold transform_matrix_flatten
    rw [if_pos hm]
  · simp [pyCol]
  · intro i j
    fin_cases i <;> fin_cases j <;> rfl

/-- Witness for C9 at the 4x4 identity matrix. -/
theorem claim_C9_witness :
    pyIdentity4.size = 4 ∧
    ∃ L, transform_matrix_flatten pyIdentity4 = .ok L ∧ L.length = 16 ∧
      ∀ i j : Fin 4, L.getD (4 * i.1 + j.1) 0 = pyIdentity4.get j.1 i.1 :=
  ⟨rfl, claim_C9_flatten_column_major pyIdentity4 rfl⟩

/-- C2: on every 4x4 matrix, mode `AUTO` yields 0.0 for the rotation-W
channel and the Euler angle of the no-order-argument (host default
ordering) conversion at index X→0, Y→1, Z→2 for the other rotation
channels, irrespective of the driver flag. -/
theorem claim_C2_auto_euler (host : HostOps) (m : PyMatrix) (hm : m.size = 4)
    (d : Bool) :
    transform_matrix_element false m (.ofStr "ROT_W") (.ofStr "AUTO") d host =
      .ok 0 ∧
    transform_matrix_element false m (.ofStr "ROT_X") (.ofStr "AUTO") d host =
      .ok ((host.toEulerAuto m).get 0) ∧
    transform_matrix_element false m (.ofStr "ROT_Y") (.ofStr "AUTO") d host =
      .ok ((host.toEulerAuto m).get 1) ∧
    transform_matrix_element false m (.ofStr "ROT_Z") (.ofStr "AUTO") d host =
      .ok ((host.toEulerAuto m).get 2) := by
  refine ⟨?_, ?_, ?_, ?_⟩ <;>
    rw [transform_matrix_element_valid host m hm _ _ (by decide) (by decide)] <;>
    rfl

/-- Witness for C2 at the 4x4 identity matrix. -/
theorem claim_C2_witness :
    pyIdentity4.size = 4 ∧
    transform_matrix_element false pyIdentity4 (.ofStr "ROT_W") (.ofStr "AUTO")
        false host0 = .ok 0 :=
  ⟨rfl, (claim_C2_auto_euler host0 pyIdentity4 rfl false).1⟩

/-- C1: for every 4x4 matrix and swing-twist rotation mode, a rotation
channel whose axis letter equals the mode's twist axis yields the twist
angle unchanged for either driver flag; any other rotation channel yields
the swing quaternion's component at the (w,x,y,z) index of its axis, and
with the driver flag set that component is mapped through `2 * arccos` for
the W axis and `2 * arcsin` for the X/Y/Z axes (on the trig domain). -/
theorem claim_C1_swing_twist (host : HostOps) (m : PyMatrix) (hm : m.size = 4)
    (tt rm : String)
    (htt : tt ∈ (["ROT_W", "ROT_X", "ROT_Y", "ROT_Z"] : List String))
    (hrm : rm ∈ (["SWING_TWIST_X", "SWING_TWIST_Y", "SWING_TWIST_Z"] : List String))
    (d : Bool) :
    (tt.back = rm.back →
      transform_matrix_element false m (.ofStr tt) (.ofStr rm) d host =
        .ok (host.swingTwist (host.toQuaternion m) rm.back).2) ∧
    (tt.back ≠ rm.back →
      transform_matrix_element false m (.ofStr tt) (.ofStr rm) false host =
        .ok ((host.swingTwist (host.toQuaternion m) rm.back).1.get
          (wxyzIndexOf tt.back))) ∧
    (tt = "ROT_W" →
      ∀ v, v = (host.swingTwist (host.toQuaternion m) rm.back).1.get
          (wxyzIndexOf tt.back) →
        -1 ≤ v → v ≤ 1 →
        transform_matrix_element false m (.ofStr tt) (.ofStr rm) true host =
          .ok (2 * Real.arccos v)) ∧
    (tt ≠ "ROT_W" → tt.back ≠ rm.back →
      ∀ v, v = (host.swingTwist (host.toQuaternion m) rm.back).1.get
          (wxyzIndexOf tt.back) →
        -1 ≤ v → v ≤ 1 →
        transform_matrix_element false m (.ofStr tt) (.ofStr rm) true host =
          .ok (2 * Real.arcsin v)) := by
  have h1 : PyArg.inTable (.ofStr tt) TRANSFORM_TYPE_TABLE = true := by
    fin_cases htt <;> decide
  have h2 : PyArg.inTable (.ofStr rm) ROTATION_MODE_TABLE = true := by
    fin_cases hrm <;> decide
  have hred := transform_matrix_element_valid host m hm tt rm h1 h2
  simp only [hred]
  fin_cases htt <;> fin_cases hrm <;>
    refine ⟨?_, ?_, ?_, ?_⟩ <;>
    first
      | (intro h; exact absurd h (by decide))
      | (intro h; rfl)
      | (intro h hne; exact absurd rfl hne)
      | (intro h v hv hv1 hv2; subst hv;
         rw [← pyAcos_map_two hv1 hv2]; rfl)
      | (intro h hne v hv hv1 hv2; subst hv;
         rw [← pyAsin_map_two hv1 hv2]; rfl)

/-- Witness for C1: twist-axis channel at a concrete matrix and host. -/
theorem claim_C1_witness :
    pyIdentity4.size = 4 ∧
    transform_matrix_element false pyIdentity4 (.ofStr "ROT_X")
        (.ofStr "SWING_TWIST_X") false host0 =
      .ok (host0.swingTwist (host0.toQuaternion pyIdentity4)
        "SWING_TWIST_X".back).2 :=
  ⟨rfl,
   (claim_C1_swing_twist host0 pyIdentity4 rfl "ROT_X" "SWING_TWIST_X"
     (by decide) (by decide) false).1 (by decide)⟩

/-- Classifier for the spec's TypeMismatch error kind. -/
def isTypeMismatch : Except PyError ℝ → Bool
  | .error (.typeError _) => true
  | _ => false

/-- A non-string value is never a member of a string-keyed table. -/
theorem inTable_nonStr (ty : String) (tbl : List (String × Nat)) :
    PyArg.inTable (.nonStr ty) tbl = false := rfl

/-- C4 counterexample: `decompose_component` called with a non-string
component selector (and an otherwise valid 4x4 matrix and rotation mode)
does NOT raise TypeMismatch — it falls through to the membership check and
raises InvalidArgument instead. -/
theorem claim_C4_counterexample :
    transform_matrix_element false pyIdentity4 (.nonStr "int") (.ofStr "AUTO")
        false host0 = .error (.valueError "transform_type") ∧
    isTypeMismatch (transform_matrix_element false pyIdentity4 (.nonStr "int")
      (.ofStr "AUTO") false host0) = false := by
  constructor <;> rfl

/-- C4 amended: only `get_transform_matrix` raises TypeMismatch for a
non-string space selector (immediately, before the membership check and
for every target); `decompose_component` performs no selector type check
outside the strict assertions, so with strict off a non-string component
or rotation-mode selector instead fails the corresponding membership check
with InvalidArgument, after the matrix shape check. -/
theorem claim_C4_amended_selector_type_errors (host : HostOps) :
    (∀ t ty, transform_matrix false t (.nonStr ty) host =
      .error (.typeError "transform_space")) ∧
    (∀ (m : PyMatrix) ty rm d, m.size = 4 →
      transform_matrix_element false m (.nonStr ty) rm d host =
        .error (.valueError "transform_type")) ∧
    (∀ (m : PyMatrix) tt ty d, m.size = 4 →
      PyArg.inTable (.ofStr tt) TRANSFORM_TYPE_TABLE = true →
      transform_matrix_element false m (.ofStr tt) (.nonStr ty) d host =
        .error (.valueError "rotation_mode")) := by
  refine ⟨fun t ty => rfl, ?_, ?_⟩
  · intro m ty rm d hm
    unfold transform_matrix_element
    simp [hm, inTable_nonStr]
  · intro m tt ty d hm h1
    unfold transform_matrix_element
    simp [hm, h1, inTable_nonStr]

/-- Witness for the amended C4. -/
theorem claim_C4_witness :
    pyIdentity4.size = 4 ∧
    PyArg.inTable (.ofStr "ROT_X") TRANSFORM_TYPE_TABLE = true ∧
    transform_matrix false PyTarget.none (.nonStr "int") host0 =
      .error (.typeError "transform_space") ∧
    transform_matrix_element false pyIdentity4 (.ofStr "ROT_X") (.nonStr "int")
        false host0 = .error (.valueError "rotation_mode") :=
  ⟨rfl, by decide,
   (claim_C4_amended_selector_type_errors host0).1 PyTarget.none "int",
   (claim_C4_amended_selector_type_errors host0).2.2 pyIdentity4 "ROT_X" "int"
     false rfl (by decide)⟩

/-- A `'XYZ'.index`-style lookup followed by further computation never
produces an AssertionError. -/
theorem strIndex_bind_ne_assert (s : String) (c : Char)
    (f : Nat → Except PyError ℝ)
    (hf : ∀ i, f i ≠ .error .assertionError) :
    (pyStrIndex s c >>= f) ≠ Except.error .assertionError := by
  unfold pyStrIndex
  rcases s.toList.findIdx? (fun a => a = c) with _ | i
  · simp [Bind.bind, Except.bind]
  · simpa [Bind.bind, Except.bind] using hf i

/-- A `'XYZ'.index`-style lookup mapped through a pure function never
produces an AssertionError. -/
theorem strIndex_map_ne_assert (s : String) (c : Char) (g : Nat → ℝ) :
    (g <$> pyStrIndex s c) ≠ Except.error .assertionError := by
  unfold pyStrIndex
  rcases s.toList.findIdx? (fun a => a = c) with _ | i <;>
    simp [Functor.map, Except.map]

/-- The driver-branch trig mapping never produces an AssertionError. -/
theorem pyAcos_map_ne_assert (v : ℝ) (g : ℝ → ℝ) :
    Except.map g (pyAcos v) ≠ Except.error .assertionError := by
  unfold pyAcos
  split_ifs <;> simp [Except.map]

/-- The asin variant of the driver-branch mapping never produces an
AssertionError. -/
theorem pyAsin_map_ne_assert (v : ℝ) (g : ℝ → ℝ) :
    Except.map g (pyAsin v) ≠ Except.error .assertionError := by
  unfold pyAsin
  split_ifs <;> simp [Except.map]

/-- The dispatch body of `transform_matrix_element` never produces an
AssertionError: assertions live only in the strict validation block. -/
theorem element_body_ne_assert (m : PyMatrix) (tt rm : String) (d : Bool)
    (host : HostOps) :
    element_body m tt rm d host ≠ .error .assertionError := by
  unfold element_body
  dsimp only
  split_ifs <;>
    first
      | (simp [Pure.pure, Except.pure]; done)
      | exact strIndex_map_ne_assert _ _ _
      | (apply strIndex_bind_ne_assert; intro i
         try dsimp only
         first
           | (simp [Pure.pure, Except.pure]; done)
           | exact pyAcos_map_ne_assert _ _
           | exact pyAsin_map_ne_assert _ _)

/-- C5: with the strict-validation flag off, the membership checks on the
space / component / rotation-mode selectors and the matrix shape check
still run and still raise InvalidArgument, for every input; only the
strict type assertions are skipped — neither function can produce an
AssertionError with strict off. -/
theorem claim_C5_checks_run_without_strict (host : HostOps) :
    (∀ t s, (TRANSFORM_SPACE_TABLE.lookup s).isSome = false →
      transform_matrix false t (.ofStr s) host =
        .error (.valueError "transform_space")) ∧
    (∀ (m : PyMatrix) tt rm d, m.size ≠ 4 →
      transform_matrix_element false m tt rm d host =
        .error (.valueError "matrix")) ∧
    (∀ (m : PyMatrix) tt rm d, m.size = 4 →
      PyArg.inTable tt TRANSFORM_TYPE_TABLE = false →
      transform_matrix_element false m tt rm d host =
        .error (.valueError "transform_type")) ∧
    (∀ (m : PyMatrix) tt rm d, m.size = 4 →
      PyArg.inTable tt TRANSFORM_TYPE_TABLE = true →
      PyArg.inTable rm ROTATION_MODE_TABLE = false →
      transform_matrix_element false m tt rm d host =
        .error (.valueError "rotation_mode")) ∧
    (∀ t sp, transform_matrix false t sp host ≠ .error .assertionError) ∧
    (∀ (m : PyMatrix) tt rm d,
      transform_matrix_element false m tt rm d host ≠
        .error .assertionError) := by
  refine ⟨?_, ?_, ?_, ?_, ?_, ?_⟩
  · intro t s hs
    unfold transform_matrix
    simp [hs]
  · intro m tt rm d hm
    unfold transform_matrix_element
    simp [hm]
  · intro m tt rm d hm h1
    unfold transform_matrix_element
    simp [hm, h1]
  · intro m tt rm d hm h1 h2
    unfold transform_matrix_element
    simp [hm, h1, h2]
  · intro t sp
    cases sp with
    | nonStr ty => simp [transform_matrix]
    | ofStr s =>
      by_cases hs : (TRANSFORM_SPACE_TABLE.lookup s).isSome = false
      · simp [transform_matrix, hs]
      · cases t <;> simp [transform_matrix, hs] <;> split_ifs <;> simp
  · intro m tt rm d
    unfold transform_matrix_element
    split_ifs with hstrict h1 h2 h3
    · simp at hstrict
    · simp
    · simp
    · simp
    · exact element_body_ne_assert m tt.asStr rm.asStr d host

/-- Witness for C5: each validation conjunct at a concrete bad input. -/
theorem claim_C5_witness :
    ((TRANSFORM_SPACE_TABLE.lookup "BOGUS_SPACE").isSome = false ∧
      transform_matrix false PyTarget.none (.ofStr "BOGUS_SPACE") host0 =
        .error (.valueError "transform_space")) ∧
    (pyMatrix3.size ≠ 4 ∧
      transform_matrix_element false pyMatrix3 (.ofStr "LOC_X") (.ofStr "AUTO")
        false host0 = .error (.valueError "matrix")) ∧
    (pyIdentity4.size = 4 ∧
      PyArg.inTable (.ofStr "BOGUS") TRANSFORM_TYPE_TABLE = false ∧
      transform_matrix_element false pyIdentity4 (.ofStr "BOGUS")
        (.ofStr "AUTO") false host0 = .error (.valueError "transform_type")) ∧
    (PyArg.inTable (.ofStr "LOC_X") TRANSFORM_TYPE_TABLE = true ∧
      PyArg.inTable (.ofStr "BOGUS") ROTATION_MODE_TABLE = false ∧
      transform_matrix_element false pyIdentity4 (.ofStr "LOC_X")
        (.ofStr "BOGUS") false host0 = .error (.valueError "rotation_mode")) :=
  ⟨⟨by decide, (claim_C5_checks_run_without_strict host0).1 PyTarget.none
      "BOGUS_SPACE" (by decide)⟩,
   ⟨by decide, (claim_C5_checks_run_without_strict host0).2.1 pyMatrix3
      (.ofStr "LOC_X") (.ofStr "AUTO") false (by decide)⟩,
   ⟨rfl, by decide, (claim_C5_checks_run_without_strict host0).2.2.1
      pyIdentity4 (.ofStr "BOGUS") (.ofStr "AUTO") false rfl (by decide)⟩,
   ⟨by decide, by decide, (claim_C5_checks_run_without_strict host0).2.2.2.1
      pyIdentity4 (.ofStr "LOC_X") (.ofStr "BOGUS") false rfl (by decide)
      (by decide)⟩⟩

/-- C6 (code bug): `compose_matrix` evaluated at its own documented
defaults — `location=(0,0,0)`, `rotation=(1,0,0,0)` as the annotated plain
tuple, `scale=(1,1,1)` — raises AttributeError because the body calls
`rotation.to_matrix()` and a tuple has no such attribute, instead of
returning the composed 4x4 matrix the signature and spec promise. -/
theorem claim_C6_compose_default_raises :
    transform_matrix_compose (0, 0, 0) (.tuple4 1 0 0 0) (1, 1, 1) host0 =
      .error .attributeError := rfl

/-- The w component of `q.inverted() * q` is exactly 1 whenever the
squared norm is nonzero. -/
theorem inverted_mul_self_w (q : Quat) (h : q.normSq ≠ 0) :
    (q.inverted.mul q).get 0 = 1 := by
  rw [Quat.inverted, if_neg h]
  simp only [Quat.mul, Quat.get]
  rw [Quat.normSq] at h ⊢
  field_simp

/-- The squared norm is multiplicative over the Hamilton product. -/
theorem normSq_mul (a b : Quat) : (a.mul b).normSq = a.normSq * b.normSq := by
  simp only [Quat.mul, Quat.normSq]
  ring

/-- Inverting a quaternion of nonzero squared norm inverts its squared
norm. -/
theorem normSq_inverted (q : Quat) (h : q.normSq ≠ 0) :
    q.inverted.normSq * q.normSq = 1 := by
  rw [Quat.inverted, if_neg h]
  have h' : q.w * q.w + q.x * q.x + q.y * q.y + q.z * q.z ≠ 0 := by
    rw [Quat.normSq] at h
    exact h
  simp only [Quat.normSq]
  field_simp

/-- The w component squared is bounded by the squared norm. -/
theorem get0_sq_le_normSq (q : Quat) : q.get 0 * q.get 0 ≤ q.normSq := by
  simp only [Quat.get, Quat.normSq]
  nlinarith [mul_self_nonneg q.x, mul_self_nonneg q.y, mul_self_nonneg q.z]

/-- C8: `target_rotational_difference` with the identical target passed
twice returns exactly 0, provided the host's matrix-to-quaternion
conversion yields a quaternion of nonzero norm on that target's world
matrix (every actual rotation quaternion is a unit quaternion). -/
theorem claim_C8_self_difference_zero (host : HostOps) (t : PyTarget)
    (h : ∀ m, transform_matrix false t (.ofStr "WORLD_SPACE") host = .ok m →
      (host.toQuaternion m).normSq ≠ 0) :
    transform_target_rotational_difference false t t host = .ok 0 := by
  obtain ⟨m, hm⟩ := transform_matrix_world_ok host t
  have hq := h m hm
  unfold transform_target_rotational_difference
  simp only [hm]
  rw [inverted_mul_self_w _ hq]
  rw [show pyAcos 1 = .ok 0 by
    unfold pyAcos
    rw [if_pos (by norm_num)]
    rw [Real.arccos_one]]
  have hval : (if |(2:ℝ) * 0| > Real.pi then 2 * Real.pi - |(2:ℝ) * 0|
      else |(2:ℝ) * 0|) = 0 := by
    rw [mul_zero, abs_zero, if_neg (not_lt.mpr Real.pi_nonneg)]
  exact congrArg Except.ok hval

/-- Witness for C8 at a concrete target and host. -/
theorem claim_C8_witness :
    (∀ m, transform_matrix false PyTarget.none (.ofStr "WORLD_SPACE") host0 =
      .ok m → (host0.toQuaternion m).normSq ≠ 0) ∧
    transform_target_rotational_difference false PyTarget.none PyTarget.none
      host0 = .ok 0 :=
  ⟨fun m _ => by norm_num [host0, Quat.normSq],
   claim_C8_self_difference_zero host0 PyTarget.none
     (fun m _ => by norm_num [host0, Quat.normSq])⟩

/-- The shorter-path fold of `2 * arccos` stays within [0, π]. -/
theorem fold_range (a : ℝ) (h0 : 0 ≤ a) (hπ : a ≤ Real.pi) :
    0 ≤ (if |2 * a| > Real.pi then 2 * Real.pi - |2 * a| else |2 * a|) ∧
    (if |2 * a| > Real.pi then 2 * Real.pi - |2 * a| else |2 * a|) ≤
      Real.pi := by
  have habs : |2 * a| = 2 * a := abs_of_nonneg (by linarith)
  rw [habs]
  split_ifs with hgt
  · constructor <;> linarith
  · exact ⟨by linarith, by linarith [not_lt.mp hgt]⟩

/-- C10: whenever the host's matrix-to-quaternion conversion produces unit
quaternions, `target_rotational_difference` returns a value in the closed
interval [0, π] for every pair of targets. -/
theorem claim_C10_difference_range (host : HostOps)
    (hunit : ∀ m : PyMatrix, (host.toQuaternion m).normSq = 1)
    (t1 t2 : PyTarget) :
    ∃ r, transform_target_rotational_difference false t1 t2 host = .ok r ∧
      0 ≤ r ∧ r ≤ Real.pi := by
  obtain ⟨m1, hm1⟩ := transform_matrix_world_ok host t1
  obtain ⟨m2, hm2⟩ := transform_matrix_world_ok host t2
  have hn1 := hunit m1
  have hn2 := hunit m2
  have h0 : (host.toQuaternion m1).normSq ≠ 0 := by
    rw [hn1]
    exact one_ne_zero
  have hinv : (host.toQuaternion m1).inverted.normSq = 1 := by
    have h := normSq_inverted _ h0
    rw [hn1, mul_one] at h
    exact h
  have hprod :
      ((host.toQuaternion m1).inverted.mul (host.toQuaternion m2)).normSq =
        1 := by
    rw [normSq_mul, hinv, hn2, one_mul]
  have hwle :
      |((host.toQuaternion m1).inverted.mul (host.toQuaternion m2)).get 0| ≤
        1 := by
    rw [abs_le_one_iff_mul_self_le_one]
    calc ((host.toQuaternion m1).inverted.mul (host.toQuaternion m2)).get 0 *
          ((host.toQuaternion m1).inverted.mul (host.toQuaternion m2)).get 0 ≤
        ((host.toQuaternion m1).inverted.mul (host.toQuaternion m2)).normSq :=
          get0_sq_le_normSq _
      _ = 1 := hprod
  obtain ⟨hl, hr⟩ := abs_le.mp hwle
  have hac :
      pyAcos (((host.toQuaternion m1).inverted.mul
        (host.toQuaternion m2)).get 0) =
      .ok (Real.arccos (((host.toQuaternion m1).inverted.mul
        (host.toQuaternion m2)).get 0)) := by
    unfold pyAcos
    rw [if_pos ⟨hl, hr⟩]
  set a := Real.arccos (((host.toQuaternion m1).inverted.mul
    (host.toQuaternion m2)).get 0) with ha
  obtain ⟨hb1, hb2⟩ := fold_range a
    (by rw [ha]; exact Real.arccos_nonneg _)
    (by rw [ha]; exact Real.arccos_le_pi _)
  refine ⟨if |2 * a| > Real.pi then 2 * Real.pi - |2 * a| else |2 * a|,
    ?_, hb1, hb2⟩
  unfold transform_target_rotational_difference
  simp only [hm1, hm2, hac]

/-- Witness for C10 at a concrete pair of targets and a unit-quaternion
host. -/
theorem claim_C10_witness :
    (∀ m : PyMatrix, (host0.toQuaternion m).normSq = 1) ∧
    ∃ r, transform_target_rotational_difference false PyTarget.none
        PyTarget.none host0 = .ok r ∧ 0 ≤ r ∧ r ≤ Real.pi :=
  ⟨fun m => by norm_num [host0, Quat.normSq],
   claim_C10_difference_range host0
     (fun m => by norm_num [host0, Quat.normSq]) PyTarget.none PyTarget.none⟩

end BlTransformUtils
